import Mathlib

/-!
Shallow embedding of the cliqsprint backend: the token store (server/db.js),
the token cache (the in-process variable `mondayAccessToken`, the environment
setting `MONDAY_ACCESS_TOKEN`, and lib/monday.js `oauthToken`), and the route
handlers of server/server.js together with the two variant entry points
(unnamed/part_000 and unnamed/part_001) where they differ.

Conventions of the embedding:
- JavaScript falsy string values (absent or empty) are modeled by `Option String`
  together with the JS truthiness test `jsTruthy`; the in-process variable,
  which is always a string in the source, is a plain `String` with the empty
  string standing for absent.
- Timestamps are integers in milliseconds (`Date.now()`).
- The Mongo connection is `Store := Option (List TokenDoc)`: `none` when
  `MONGODB_URI` is unset (degraded mode), otherwise the list of documents of
  the `tokens` collection, unique per `service` (the unique index).
- Network effects are made explicit: a handler returns the provider request it
  issues (or `none` when it issues no call), and takes the outcome of provider
  calls as a parameter.
- JSON response bodies emitted by these handlers are flat objects of scalar
  fields, so JSON values are modeled by a non-nested inductive.
-/

namespace Cliqsprint

/-- A JSON scalar-or-flat-object value, enough for every body these handlers
read or emit. -/
inductive JsonVal where
  | str (s : String)
  | num (n : Int)
  | obj (fields : List (String × String))
  deriving DecidableEq, Repr

/-- An HTTP response body: plain text via `res.send`, or JSON via `res.json`. -/
inductive Body where
  | text (s : String)
  | json (j : JsonVal)
  deriving DecidableEq, Repr

/-- An HTTP response: status code plus body. -/
structure HttpResp where
  status : Nat
  body : Body
  deriving DecidableEq, Repr

/-- JS truthiness of a possibly-undefined string value: `undefined`, `null`
and the empty string are falsy. -/
def jsTruthy : Option String → Bool
  | none => false
  | some s => s != ""

/-- JS truthiness of a possibly-undefined integer value: `undefined`, `null`
and `0` are falsy. -/
def jsTruthyInt : Option Int → Bool
  | none => false
  | some n => n != 0

/-- JS `a || b` where `a` is a plain string variable and `b` a
possibly-undefined environment value: first truthy value, else absent. -/
def orElseStr (a : String) (b : Option String) : Option String :=
  if a != "" then some a
  else if jsTruthy b then b else none

/-- JS `x || null` on a possibly-undefined string. -/
def orNull (o : Option String) : Option String :=
  if jsTruthy o then o else none

/-- JS `x || null` on a possibly-undefined integer. -/
def orNullInt (o : Option Int) : Option Int :=
  if jsTruthyInt o then o else none

/-- One document of the `tokens` collection (server/db.js saveToken doc). -/
structure TokenDoc where
  service : String
  access_token : String
  refresh_token : Option String
  expires_at : Option Int
  updated_at : Int
  deriving DecidableEq, Repr

/-- The persistent store: `none` models an unconfigured or unconnected DB. -/
abbrev Store := Option (List TokenDoc)

/-- `findOne \x7bservice\x7d` on the tokens collection. -/
def findDoc : List TokenDoc → String → Option TokenDoc
  | [], _ => none
  | d :: ds, s => if d.service == s then some d else findDoc ds s

/-- `updateOne \x7bservice\x7d \x7b$set: doc\x7d \x7bupsert: true\x7d` under the
unique index on `service`: replace the matching document or append. -/
def upsert : List TokenDoc → TokenDoc → List TokenDoc
  | [], d => [d]
  | x :: xs, d => if x.service == d.service then d :: xs else x :: upsert xs d

/-- server/db.js `saveToken(service, access_token, refresh_token, expires_in)`:
no-op returning null when the DB is not connected; otherwise builds the doc
(with `expires_at = expires_in ? new Date(Date.now() + expires_in*1000) : null`)
and upserts it, returning the updated store and the doc handed back. -/
def saveToken (now : Int) (db : Store) (service access_token : String)
    (refresh_token : Option String) (expires_in : Option Int) :
    Store × Option TokenDoc :=
  match db with
  | none => (none, none)
  | some docs =>
    let doc : TokenDoc :=
      { service := service
        access_token := access_token
        refresh_token := refresh_token
        expires_at :=
          if jsTruthyInt expires_in then some (now + expires_in.getD 0 * 1000)
          else none
        updated_at := now }
    (some (upsert docs doc), some doc)

/-- server/db.js `getToken(service)`: null when the DB is not connected, else
`doc?.access_token || null` of the matching document. -/
def getToken (db : Store) (service : String) : Option String :=
  match db with
  | none => none
  | some docs =>
    match findDoc docs service with
    | none => none
    | some d => if d.access_token != "" then some d.access_token else none

/-- The document stored for a service, as visible in the store. -/
def storedDoc (db : Store) (service : String) : Option TokenDoc :=
  match db with
  | none => none
  | some docs => findDoc docs service

/-- Process-wide mutable token state: the `mondayAccessToken` variable of the
server entry point, the `process.env.MONDAY_ACCESS_TOKEN` setting, and the
`oauthToken` variable of lib/monday.js. -/
structure ServerState where
  mondayAccessToken : String
  envAccessToken : Option String
  libToken : String
  deriving DecidableEq, Repr

/-- The token-cache read used inline by the handlers:
`mondayAccessToken || process.env.MONDAY_ACCESS_TOKEN` (server.js line 104). -/
def currentToken (st : ServerState) : Option String :=
  orElseStr st.mondayAccessToken st.envAccessToken

/-- The full token resolution of the create-webhook handler: cache read first,
then the store lookup `getToken("monday")` only when the cache is absent
(server.js lines 104-115). -/
def resolveToken (st : ServerState) (db : Store) : Option String :=
  match currentToken st with
  | some t => some t
  | none => getToken db "monday"

/-- A token response body from the provider token endpoint (`resp.data`). -/
structure TokenResponse where
  access_token : Option String
  refresh_token : Option String
  expires_in : Option Int
  deriving DecidableEq, Repr

/-- Outcome of the `axios.post` to the provider token endpoint: a thrown
transport / non-2xx error, or a response whose `data` may be undefined. -/
inductive ExchangeOutcome where
  | failure
  | success (data : Option TokenResponse)
  deriving DecidableEq, Repr

/-- `resp.data` lacks a usable access token: `!resp.data || !resp.data.access_token`. -/
def lacksAccessToken : Option TokenResponse → Bool
  | none => true
  | some d => !(jsTruthy d.access_token)

/-- Result of one run of the OAuth callback handler: the token state and store
after it, and the HTTP response sent. -/
structure OAuthOutcome where
  state : ServerState
  store : Store
  resp : HttpResp
  deriving DecidableEq, Repr

/-- server/server.js `GET /monday/oauth/callback` (lines 50-93).
`dbWriteFails` models the `saveToken` promise rejecting, which the handler
catches and only logs. -/
def oauthCallback (st : ServerState) (db : Store) (code : Option String)
    (exch : ExchangeOutcome) (dbWriteFails : Bool) (now : Int) : OAuthOutcome :=
  if !(jsTruthy code) then
    ⟨st, db, ⟨400, .text "No code query parameter present."⟩⟩
  else
    match exch with
    | .failure => ⟨st, db, ⟨500, .text "OAuth token exchange failed. See server logs."⟩⟩
    | .success data =>
      if lacksAccessToken data then
        ⟨st, db, ⟨500, .text "Token exchange did not return access_token. Check server logs."⟩⟩
      else
        match data with
        | none => ⟨st, db, ⟨500, .text "Token exchange did not return access_token. Check server logs."⟩⟩
        | some d =>
          let t := d.access_token.getD ""
          let st1 : ServerState := ⟨t, some t, t⟩
          let db1 :=
            if dbWriteFails then db
            else (saveToken now db "monday" t (orNull d.refresh_token)
                    (orNullInt d.expires_in)).1
          ⟨st1, db1,
            ⟨200, .text "OAuth complete. Server has the monday access token. You can now call /monday/create-webhook?board=<BOARD_ID>"⟩⟩

/-- `s.replace(/\/$/, "")`: drop one trailing slash. -/
def stripSlash (s : String) : String :=
  if s.endsWith "/" then s.dropRight 1 else s

/-- The string-interpolated GraphQL mutation of server/server.js
(lines 122-132), with the board id and webhook URL spliced into the text. -/
def mutationServerJs (boardId webhookUrl : String) : String :=
  "\n    mutation \x7b\n      create_webhook (\n        board_id: " ++ boardId ++
  ",\n        url: \"" ++ webhookUrl ++
  "\",\n        event: change_column_value\n      ) \x7b\n        id\n      \x7d\n    \x7d\n  "

/-- The constant GraphQL mutation text of unnamed/part_001 (lines 124-130); no
input is interpolated into it. -/
def queryPart001 : String :=
  "\n    mutation CreateWebhook($boardId: Int!, $url: String!) \x7b\n      create_webhook(board_id: $boardId, url: $url, event: change_column_value) \x7b\n        id\n      \x7d\n    \x7d\n  "

/-- One HTTP request to the provider GraphQL endpoint: the body fields `query`
and (when present) `variables` — named `vars` here because `variables` is a
reserved word in Lean — and the Authorization header. -/
structure GraphQLRequest where
  query : String
  vars : Option (List (String × JsonVal))
  authorization : String
  deriving DecidableEq, Repr

/-- The provider request built by unnamed/part_001 (lines 132-145): constant
query text, inputs carried in the variables object. -/
def requestPart001 (boardId : Int) (webhookUrl token : String) : GraphQLRequest :=
  ⟨queryPart001, some [("boardId", .num boardId), ("url", .str webhookUrl)], token⟩

/-- Result of one run of the create-webhook handler: the token state after it,
the provider request issued (`none` when no network call was made), and the
HTTP response sent. -/
structure WebhookCreateOutcome where
  state : ServerState
  request : Option GraphQLRequest
  resp : HttpResp
  deriving DecidableEq, Repr

/-- server/server.js `GET /monday/create-webhook` (lines 99-147).
`publicUrl` is the value `getPublicUrl(req)` returned; `netOk` and
`providerData` model the outcome of the provider call when one is issued. -/
def createWebhook (st : ServerState) (db : Store) (board : Option String)
    (publicUrl : String) (netOk : Bool) (providerData : JsonVal) :
    WebhookCreateOutcome :=
  if !(jsTruthy board) then
    ⟨st, none, ⟨400, .text "Missing ?board=<BOARD_ID> query param."⟩⟩
  else
    let boardId := board.getD ""
    let found : Option (String × ServerState) :=
      match currentToken st with
      | some t => some (t, st)
      | none =>
        match getToken db "monday" with
        | some t => some (t, { st with mondayAccessToken := t, libToken := t })
        | none => none
    match found with
    | none =>
      ⟨st, none, ⟨400, .text "No monday OAuth token available. Please run /monday/oauth first."⟩⟩
    | some (t, st1) =>
      let webhookUrl := stripSlash publicUrl ++ "/webhook/monday"
      let req : GraphQLRequest := ⟨mutationServerJs boardId webhookUrl, none, t⟩
      if netOk then ⟨st1, some req, ⟨200, .json providerData⟩⟩
      else ⟨st1, some req, ⟨500, .text "Failed to create webhook. See server logs."⟩⟩

/-- An inbound webhook body as the receiver reads it: `req.body` may be absent
and its `challenge` field may be absent. -/
structure WebhookReqBody where
  challenge : Option String
  deriving DecidableEq, Repr

/-- server/server.js `POST /webhook/monday` (lines 152-156): unconditionally
responds 200 with the text body ok. -/
def webhookMonday (_body : Option WebhookReqBody) : HttpResp :=
  ⟨200, .text "ok"⟩

/-- unnamed/part_000 `POST /webhook/monday` (lines 163-173): when
`req.body && req.body.challenge` is truthy, `res.json(\x7bchallenge\x7d)`;
otherwise 200 text ok. -/
def webhookMondayPart000 (body : Option WebhookReqBody) : HttpResp :=
  match body with
  | some b =>
    if jsTruthy b.challenge then
      ⟨200, .json (.obj [("challenge", b.challenge.getD "")])⟩
    else ⟨200, .text "ok"⟩
  | none => ⟨200, .text "ok"⟩

/-- Module-load token state of server/server.js: line 18 seeds the in-process
variable from the environment (`process.env.MONDAY_ACCESS_TOKEN || ""`), and
lib/monday.js line 5 does the same for its own variable. -/
def initStateServerJs (env : Option String) : ServerState :=
  ⟨(orNull env).getD "", env, (orNull env).getD ""⟩

/-- Module-load token state of unnamed/part_000 and part_001: line 17 sets the
in-process variable to the empty string. -/
def initStatePart000 (env : Option String) : ServerState :=
  ⟨"", env, (orNull env).getD ""⟩

/-- server/server.js `start()` (lines 168-177): `connectDB` then `listen`; it
performs no token-store read and leaves the token state unchanged. -/
def startServerJs (_db : Store) (st : ServerState) : ServerState :=
  st

/-- unnamed/part_000 `start()` (lines 198-221): after `connectDB`, reads
`getToken("monday")` and, when found, seeds the in-process variable, the lib
token and the environment setting before `listen`. -/
def startPart000 (db : Store) (st : ServerState) : ServerState :=
  match getToken db "monday" with
  | some t => ⟨t, some t, t⟩
  | none => st

/-- Helper: after an upsert, the lookup for the upserted service finds exactly
the new document. -/
theorem findDoc_upsert (docs : List TokenDoc) (d : TokenDoc) :
    findDoc (upsert docs d) d.service = some d := by
  induction docs with
  | nil => simp [upsert, findDoc]
  | cons x xs ih =>
    by_cases h : x.service == d.service
    · simp [upsert, findDoc, h]
    · simp [upsert, findDoc, h, ih]

/-- Helper: the document visible in the store for a service right after a
saveToken on a connected store for that same service. -/
theorem storedDoc_saveToken (now : Int) (docs : List TokenDoc)
    (service t : String) (rt : Option String) (ei : Option Int) :
    storedDoc (saveToken now (some docs) service t rt ei).1 service =
      some { service := service, access_token := t, refresh_token := rt,
             expires_at :=
               if jsTruthyInt ei then some (now + ei.getD 0 * 1000) else none,
             updated_at := now } := by
  have h := findDoc_upsert docs
    { service := service, access_token := t, refresh_token := rt,
      expires_at := if jsTruthyInt ei then some (now + ei.getD 0 * 1000) else none,
      updated_at := now }
  simpa [saveToken, storedDoc] using h

/-- A concrete connected store holding a monday token, used as a test state. -/
def storeWithTok : Store := some [⟨"monday", "tok", none, none, 0⟩]

/-- C1: the claim requires the webhook receiver to echo `\x7bchallenge\x7d` as
JSON whenever the inbound body carries a challenge field. The
server/server.js handler answers 200 with the plain text ok even to a
challenge body, so the mandatory handshake response is never produced there;
the unnamed/part_000 variant does produce the exact echo, and answers a
non-challenge body with the plain 200 acknowledgement. -/
theorem webhook_challenge_divergence :
    webhookMonday (some ⟨some "abc"⟩) = ⟨200, .text "ok"⟩ ∧
    webhookMonday (some ⟨some "abc"⟩) ≠
      ⟨200, .json (.obj [("challenge", "abc")])⟩ ∧
    webhookMondayPart000 (some ⟨some "abc"⟩) =
      ⟨200, .json (.obj [("challenge", "abc")])⟩ ∧
    webhookMondayPart000 (some ⟨none⟩) = ⟨200, .text "ok"⟩ := by
  refine ⟨rfl, by decide, rfl, rfl⟩

/-- C2: when the provider token response carries a non-empty access token `t`,
the OAuth callback leaves the in-process variable and the environment setting
holding `t`, the cache read returns `t`, and the response is the 200 success —
for both values of `dbWriteFails`, so a failing store write neither reverts
the in-memory update nor changes the user-visible success. -/
theorem oauth_success_caches_token (st : ServerState) (db : Store)
    (code : Option String) (d : TokenResponse) (dbWriteFails : Bool) (now : Int)
    (t : String) (hc : jsTruthy code = true) (ht : d.access_token = some t)
    (hne : t ≠ "") :
    (oauthCallback st db code (.success (some d)) dbWriteFails now).state.mondayAccessToken = t ∧
    (oauthCallback st db code (.success (some d)) dbWriteFails now).state.envAccessToken = some t ∧
    currentToken (oauthCallback st db code (.success (some d)) dbWriteFails now).state = some t ∧
    (oauthCallback st db code (.success (some d)) dbWriteFails now).resp.status = 200 := by
  have hcode : (!(jsTruthy code)) = false := by simp [hc]
  have htok : lacksAccessToken (some d) = false := by
    simp [lacksAccessToken, ht, jsTruthy, hne]
  simp [oauthCallback, hcode, htok, ht, currentToken, orElseStr, hne]

/-- C2 witness: a concrete exchange returning tok123 with a failing store
write still caches tok123 and reports success. -/
theorem oauth_success_caches_token_witness :
    (oauthCallback ⟨"", none, ""⟩ (some []) (some "code1")
        (.success (some ⟨some "tok123", none, none⟩)) true 0).state.mondayAccessToken = "tok123" ∧
    (oauthCallback ⟨"", none, ""⟩ (some []) (some "code1")
        (.success (some ⟨some "tok123", none, none⟩)) true 0).state.envAccessToken = some "tok123" ∧
    currentToken (oauthCallback ⟨"", none, ""⟩ (some []) (some "code1")
        (.success (some ⟨some "tok123", none, none⟩)) true 0).state = some "tok123" ∧
    (oauthCallback ⟨"", none, ""⟩ (some []) (some "code1")
        (.success (some ⟨some "tok123", none, none⟩)) true 0).resp.status = 200 :=
  oauth_success_caches_token ⟨"", none, ""⟩ (some []) (some "code1")
    ⟨some "tok123", none, none⟩ true 0 "tok123" (by decide) rfl (by decide)

/-- C3: when the provider token response lacks an access token (undefined
data, absent field, or empty string), the OAuth callback responds 500 and
leaves the token state and the store exactly as they were. -/
theorem oauth_missing_token_no_mutation (st : ServerState) (db : Store)
    (code : Option String) (data : Option TokenResponse) (dbWriteFails : Bool)
    (now : Int) (hc : jsTruthy code = true)
    (hm : lacksAccessToken data = true) :
    (oauthCallback st db code (.success data) dbWriteFails now).resp.status = 500 ∧
    (oauthCallback st db code (.success data) dbWriteFails now).state = st ∧
    (oauthCallback st db code (.success data) dbWriteFails now).store = db := by
  simp [oauthCallback, hc, hm]

/-- C3 witness: a concrete response without access_token leaves a populated
state and store untouched and yields 500. -/
theorem oauth_missing_token_no_mutation_witness :
    (oauthCallback ⟨"old", some "old", "old"⟩ storeWithTok (some "code1")
        (.success (some ⟨none, some "r", some 60⟩)) false 0).resp.status = 500 ∧
    (oauthCallback ⟨"old", some "old", "old"⟩ storeWithTok (some "code1")
        (.success (some ⟨none, some "r", some 60⟩)) false 0).state = ⟨"old", some "old", "old"⟩ ∧
    (oauthCallback ⟨"old", some "old", "old"⟩ storeWithTok (some "code1")
        (.success (some ⟨none, some "r", some 60⟩)) false 0).store = storeWithTok :=
  oauth_missing_token_no_mutation ⟨"old", some "old", "old"⟩ storeWithTok
    (some "code1") (some ⟨none, some "r", some 60⟩) false 0 (by decide) (by decide)

/-- C4: with a present board id but no token in the in-process variable, the
environment setting or the store, the create-webhook handler responds 400
with the message directing the caller to the OAuth flow, and issues no
provider request. -/
theorem createWebhook_no_token_fails (st : ServerState) (db : Store)
    (board : Option String) (publicUrl : String) (netOk : Bool)
    (pd : JsonVal) (hb : jsTruthy board = true)
    (h1 : st.mondayAccessToken = "") (h2 : jsTruthy st.envAccessToken = false)
    (h3 : getToken db "monday" = none) :
    (createWebhook st db board publicUrl netOk pd).resp =
      ⟨400, .text "No monday OAuth token available. Please run /monday/oauth first."⟩ ∧
    (createWebhook st db board publicUrl netOk pd).request = none := by
  simp [createWebhook, hb, currentToken, orElseStr, h1, h2, h3]

/-- C4 witness: a concrete empty state with an empty store yields the 400 and
no provider request. -/
theorem createWebhook_no_token_fails_witness :
    (createWebhook ⟨"", none, ""⟩ (some []) (some "123") "https://x" true (.num 0)).resp =
      ⟨400, .text "No monday OAuth token available. Please run /monday/oauth first."⟩ ∧
    (createWebhook ⟨"", none, ""⟩ (some []) (some "123") "https://x" true (.num 0)).request = none :=
  createWebhook_no_token_fails ⟨"", none, ""⟩ (some []) (some "123") "https://x"
    true (.num 0) (by decide) rfl (by decide) (by decide)

/-- C5: the token read precedence. A non-empty in-process value wins; with the
in-process value absent and the environment setting non-empty, the cache read
returns the environment value; with both absent the cache read alone returns
absent, and only the full resolution of the create-webhook handler falls back
to the store. -/
theorem token_read_precedence (st : ServerState) (db : Store) :
    (st.mondayAccessToken ≠ "" →
      currentToken st = some st.mondayAccessToken ∧
      resolveToken st db = some st.mondayAccessToken) ∧
    (∀ v, st.mondayAccessToken = "" → st.envAccessToken = some v → v ≠ "" →
      currentToken st = some v) ∧
    (st.mondayAccessToken = "" → jsTruthy st.envAccessToken = false →
      currentToken st = none ∧ resolveToken st db = getToken db "monday") := by
  refine ⟨fun h => ?_, fun v h1 h2 h3 => ?_, fun h1 h2 => ?_⟩
  · simp [currentToken, orElseStr, resolveToken, h]
  · simp [currentToken, orElseStr, h1, h2, jsTruthy, h3]
  · simp [currentToken, orElseStr, resolveToken, h1, h2]

/-- C5 witness: with the in-process value empty and the environment holding
envtok, the cache read returns envtok; with both absent it returns absent. -/
theorem token_read_precedence_witness :
    currentToken ⟨"", some "envtok", ""⟩ = some "envtok" ∧
    currentToken ⟨"", none, ""⟩ = none :=
  ⟨(token_read_precedence ⟨"", some "envtok", ""⟩ none).2.1 "envtok" rfl rfl (by decide),
   ((token_read_precedence ⟨"", none, ""⟩ none).2.2 rfl (by decide)).1⟩

/-- C6: on a connected store, a put of a valid (non-empty) access token for a
service followed by a get on the same service returns that access token, for
every refresh token and expiry argument. -/
theorem saveToken_getToken_roundtrip (docs : List TokenDoc) (service t : String)
    (rt : Option String) (ei : Option Int) (now : Int) (ht : t ≠ "") :
    getToken (saveToken now (some docs) service t rt ei).1 service = some t := by
  have h := findDoc_upsert docs
    { service := service, access_token := t, refresh_token := rt,
      expires_at := if jsTruthyInt ei then some (now + ei.getD 0 * 1000) else none,
      updated_at := now }
  simp [saveToken, getToken, h, ht]

/-- C6 witness: a concrete put of tok9 then get returns tok9. -/
theorem saveToken_getToken_roundtrip_witness :
    getToken (saveToken 7 (some []) "monday" "tok9" (some "r") (some 60)).1 "monday" =
      some "tok9" :=
  saveToken_getToken_roundtrip [] "monday" "tok9" (some "r") (some 60) 7 (by decide)

/-- C7 counterexample: with a stored monday token tok and an empty
environment, the server/server.js startup performs no store read and leaves
the cache empty — the stored token is not seeded. -/
theorem startServerJs_does_not_seed :
    getToken storeWithTok "monday" = some "tok" ∧
    currentToken (startServerJs storeWithTok (initStateServerJs none)) = none := by
  decide

/-- C7 amended: the server/server.js `start` leaves the token state exactly as
module load left it (no store read, the in-process value seeded only from the
environment setting); the startup store read and seeding of both mirrors
happen in the unnamed/part_000 and part_001 variants. -/
theorem startup_seeding_amended (db : Store) (env : Option String) (t : String)
    (h : getToken db "monday" = some t) :
    startServerJs db (initStateServerJs env) = initStateServerJs env ∧
    (startPart000 db (initStatePart000 env)).mondayAccessToken = t ∧
    (startPart000 db (initStatePart000 env)).envAccessToken = some t := by
  simp [startServerJs, startPart000, h]

/-- C7 amended witness: with the concrete store holding tok, the part_000
startup seeds both mirrors with tok and the server.js startup is inert. -/
theorem startup_seeding_amended_witness :
    startServerJs storeWithTok (initStateServerJs none) = initStateServerJs none ∧
    (startPart000 storeWithTok (initStatePart000 none)).mondayAccessToken = "tok" ∧
    (startPart000 storeWithTok (initStatePart000 none)).envAccessToken = some "tok" :=
  startup_seeding_amended storeWithTok none "tok" (by decide)

/-- C8: the query text server/server.js sends is built by string
interpolation, so two different board ids produce two different query
strings — both as the raw mutation text and in the request the handler
issues — while the unnamed/part_001 request keeps a constant query text for
all inputs and carries the board id and URL only in the variables object. -/
theorem mutation_interpolation_divergence :
    mutationServerJs "1" "https://x/webhook/monday" ≠
      mutationServerJs "2" "https://x/webhook/monday" ∧
    ((createWebhook ⟨"tok", none, "tok"⟩ none (some "1") "https://x" true (.num 0)).request.map
        GraphQLRequest.query ≠
      (createWebhook ⟨"tok", none, "tok"⟩ none (some "2") "https://x" true (.num 0)).request.map
        GraphQLRequest.query) ∧
    (∀ b1 b2 : Int, ∀ u1 u2 tk1 tk2 : String,
      (requestPart001 b1 u1 tk1).query = (requestPart001 b2 u2 tk2).query) ∧
    (∀ b : Int, ∀ u tk : String,
      (requestPart001 b u tk).vars = some [("boardId", .num b), ("url", .str u)]) := by
  refine ⟨by decide, by decide, fun _ _ _ _ _ _ => rfl, fun _ _ _ => rfl⟩

/-- C9 counterexample: `saveToken` called with `expires_in = 0` (a provided
argument) stores no `expires_at`, although the claim requires it to equal
`now + 0`. -/
theorem saveToken_expires_zero_counterexample :
    (storedDoc (saveToken 5 (some []) "monday" "tok" none (some 0)).1 "monday").map
        TokenDoc.expires_at = some none ∧
    (none : Option Int) ≠ some (5 + 0 * 1000) := by
  decide

/-- C9 amended: the stored expires_at equals now plus expires_in (in
milliseconds) whenever expires_in is provided and truthy (non-zero), and is
absent when expires_in is absent or zero. -/
theorem saveToken_expiresAt_amended (now : Int) (docs : List TokenDoc)
    (service t : String) (rt : Option String) (e : Int) (he : e ≠ 0) :
    (storedDoc (saveToken now (some docs) service t rt (some e)).1 service).map
        TokenDoc.expires_at = some (some (now + e * 1000)) ∧
    (storedDoc (saveToken now (some docs) service t rt none).1 service).map
        TokenDoc.expires_at = some none ∧
    (storedDoc (saveToken now (some docs) service t rt (some 0)).1 service).map
        TokenDoc.expires_at = some none := by
  refine ⟨?_, ?_, ?_⟩ <;>
    simp [storedDoc_saveToken, jsTruthyInt, he]

/-- C9 amended witness: expires_in 60 at now 5 stores expires_at 60005, and
absent expires_in stores none. -/
theorem saveToken_expiresAt_amended_witness :
    (storedDoc (saveToken 5 (some []) "monday" "tok" none (some 60)).1 "monday").map
        TokenDoc.expires_at = some (some (5 + 60 * 1000)) ∧
    (storedDoc (saveToken 5 (some []) "monday" "tok" none none).1 "monday").map
        TokenDoc.expires_at = some none ∧
    (storedDoc (saveToken 5 (some []) "monday" "tok" none (some 0)).1 "monday").map
        TokenDoc.expires_at = some none :=
  saveToken_expiresAt_amended 5 [] "monday" "tok" none 60 (by decide)

/-- C10: a stored record whose access_token is the empty string is coerced to
the absent signal: the get returns none for that service, exactly as it does
on a store holding no record at all. -/
theorem getToken_empty_token_absent (docs : List TokenDoc) (service : String)
    (d : TokenDoc) (hf : findDoc docs service = some d)
    (he : d.access_token = "") :
    getToken (some docs) service = none ∧
    getToken (some []) service = none := by
  simp [getToken, hf, he, findDoc]

/-- C10 witness: a store whose monday record has the empty access_token
yields none, as does the empty store. -/
theorem getToken_empty_token_absent_witness :
    getToken (some [⟨"monday", "", some "r", some 9, 0⟩]) "monday" = none ∧
    getToken (some []) "monday" = none :=
  getToken_empty_token_absent [⟨"monday", "", some "r", some 9, 0⟩] "monday"
    ⟨"monday", "", some "r", some 9, 0⟩ (by decide) rfl

end Cliqsprint
